import Mathlib

/-!
Shallow embedding of the pg-harmony property-management application:
the rent ledger, the maintenance-request lifecycle, the dashboard
aggregation, the role-based routing branches, tenant provisioning and
the row-level-security read policies, translated from the page
components and the SQL schema of the repository.
-/

namespace PGHarmony

/-! ## Data model (SQL schema and page-component record types) -/

/-- A row of `public.tenants` as used by the pages:
`{id, name, room_no, auth_user_id}` (contact, deposit and timestamps are
not needed by the aggregation and policy logic). -/
structure TenantRow where
  id : String
  name : String
  room_no : String
  auth_user_id : Option String
  deriving DecidableEq, Repr

/-- A row of `public.rent_payments`:
`{tenant_id, month, year, amount, paid_on}`.  `amount` is a
`NUMERIC(10,2)` which may be negative (the schema places no CHECK on
it), modelled as an integer number of currency units. -/
structure RentPaymentRow where
  tenant_id : String
  month : Nat
  year : Nat
  amount : Int
  paid_on : String
  deriving DecidableEq, Repr

/-- A row of `public.maintenance_requests`:
`{id, tenant_id, room_no, issue_description, status, created_at,
resolved_at}`.  `status` is the TEXT column constrained to
`'open' | 'resolved'`; timestamps are modelled as naturals. -/
structure MRequestRow where
  id : String
  tenant_id : String
  room_no : String
  issue_description : String
  status : String
  created_at : Nat
  resolved_at : Option Nat
  deriving DecidableEq, Repr

/-- The `app_role` enum of the schema. -/
inductive AppRole where
  | admin
  | tenant
  deriving DecidableEq, Repr

/-- A row of `public.user_roles` (the fields the policies consult). -/
structure UserRoleRow where
  user_id : String
  role : AppRole
  deriving DecidableEq, Repr

/-! ## Rent ledger (`rent_payments` inserts, RentTracking.handleSubmit) -/

/-- The `CHECK (month >= 1 AND month <= 12)` constraint of
`rent_payments`. -/
def monthCheck (m : Nat) : Bool :=
  1 ≤ m && m ≤ 12

/-- The `CHECK (year >= 2000 AND year <= 2100)` constraint of
`rent_payments`. -/
def yearCheck (y : Nat) : Bool :=
  2000 ≤ y && y ≤ 2100

/-- Error signals the store returns on a failed insert:
`uniqueViolation` is SQLSTATE 23505 (the `UNIQUE (tenant_id, month,
year)` constraint), `checkViolation` a failed CHECK constraint. -/
inductive StoreError where
  | uniqueViolation
  | checkViolation
  deriving DecidableEq, Repr

/-- Two payment rows collide on the composite key
`(tenant_id, month, year)`. -/
def sameKey (p q : RentPaymentRow) : Bool :=
  p.tenant_id == q.tenant_id && p.month == q.month && p.year == q.year

/-- Store-side insert into `rent_payments`: the CHECK constraints on
`month` and `year` and the `UNIQUE (tenant_id, month, year)` constraint
guard the append; `amount` has no constraint. -/
def rentPaymentsInsert (ledger : List RentPaymentRow) (p : RentPaymentRow) :
    Except StoreError (List RentPaymentRow) :=
  if !(monthCheck p.month && yearCheck p.year) then
    Except.error StoreError.checkViolation
  else if ledger.any (sameKey p) then
    Except.error StoreError.uniqueViolation
  else
    Except.ok (ledger ++ [p])

/-- Errors as surfaced by `RentTracking.handleSubmit`:
`duplicatePayment` is the specific message thrown when the store signals
code 23505; every other store error is rethrown generically. -/
inductive RecordError where
  | duplicatePayment
  | generic (e : StoreError)
  deriving DecidableEq, Repr

/-- `RentTracking.handleSubmit`: perform the insert and map the store's
uniqueness-violation code 23505 to the specific duplicate-payment
error; other errors are surfaced as-is. -/
def recordPayment (ledger : List RentPaymentRow) (p : RentPaymentRow) :
    Except RecordError (List RentPaymentRow) :=
  match rentPaymentsInsert ledger p with
  | Except.ok l => Except.ok l
  | Except.error StoreError.uniqueViolation => Except.error RecordError.duplicatePayment
  | Except.error e => Except.error (RecordError.generic e)

/-! ## Maintenance tracker (SubmitRequest, MaintenanceManagement) -/

/-- The tenant information `SubmitRequest.fetchTenantInfo` resolves:
`{id, room_no}` of the tenant row linked to the signed-in user. -/
structure TenantInfo where
  id : String
  room_no : String
  deriving DecidableEq, Repr

/-- The payload `SubmitRequest.handleSubmit` inserts into
`maintenance_requests`. -/
structure MaintenanceInsert where
  tenant_id : String
  room_no : String
  issue_description : String
  status : String
  deriving DecidableEq, Repr

/-- Errors of the submit-request page: a zod validation failure before
the insert, or a failed backend call. -/
inductive SubmitError where
  | validationError
  | backendError
  deriving DecidableEq, Repr

/-- `requestSchema`: zod `z.string().min(10).max(1000)` on
`issue_description`, i.e. the length lies in the closed interval
[10, 1000]. -/
def requestSchemaCheck (s : String) : Bool :=
  10 ≤ s.length && s.length ≤ 1000

/-- `SubmitRequest.handleSubmit`: parse the description against
`requestSchema` first; only on success is the insert payload built and
issued.  The result pairs the list of issued insert calls with the
error shown, so that "no insert call is issued" is an inspectable
fact. -/
def submitRequest (ti : TenantInfo) (desc : String) :
    List MaintenanceInsert × Option SubmitError :=
  if requestSchemaCheck desc then
    ([{ tenant_id := ti.id, room_no := ti.room_no,
        issue_description := desc, status := "open" }], none)
  else
    ([], some SubmitError.validationError)

/-- A state-changing call a page issues against `maintenance_requests`:
creation of a new request (`SubmitRequest.handleSubmit` for a resolved
tenant and a description) or resolution
(`MaintenanceManagement.handleResolve`). -/
inductive MStep where
  | create (ti : TenantInfo) (desc : String) (id : String)
  | resolve (id : String)
  deriving DecidableEq, Repr

/-- Apply one call at time `t` to the `maintenance_requests` table.
`create` appends the rows `SubmitRequest.handleSubmit` inserts (one
row with `status := 'open'` when validation passes, none otherwise),
with `created_at := t` (the column's `DEFAULT now()`) and
`resolved_at := none`; `resolve` is the update `SET status =
'resolved', resolved_at = now() WHERE id = id`. -/
def applyMStep (db : List MRequestRow) (s : MStep) (t : Nat) : List MRequestRow :=
  match s with
  | MStep.create ti desc id =>
      db ++ ((submitRequest ti desc).1).map (fun ins =>
        { id := id, tenant_id := ins.tenant_id, room_no := ins.room_no,
          issue_description := ins.issue_description, status := ins.status,
          created_at := t, resolved_at := none })
  | MStep.resolve id =>
      db.map (fun r =>
        if r.id == id then
          { r with status := "resolved", resolved_at := some t }
        else r)

/-- Replay a trace of timestamped calls from the empty table. -/
def runTrace (tr : List (MStep × Nat)) : List MRequestRow :=
  tr.foldl (fun db st => applyMStep db st.1 st.2) []

/-- Timestamps along a trace are non-decreasing, starting from the
lower bound `t0` (wall-clock time only moves forward between calls). -/
def ChronoFrom (t0 : Nat) : List (MStep × Nat) → Prop
  | [] => True
  | st :: rest => t0 ≤ st.2 ∧ ChronoFrom st.2 rest

/-- The invariant the maintenance table satisfies at any moment `t0`:
every row was created no later than `t0`, `resolved_at` is set exactly
on resolved rows, and any resolution time lies between the row's
creation and `t0`. -/
def MInv (db : List MRequestRow) (t0 : Nat) : Prop :=
  ∀ r ∈ db, r.created_at ≤ t0 ∧
    (r.resolved_at.isSome ↔ r.status = "resolved") ∧
    (∀ ts, r.resolved_at = some ts → r.created_at ≤ ts ∧ ts ≤ t0)

/-! ## Dashboard aggregation (Dashboard, RentTracking, MaintenanceManagement) -/

/-- The payments the dashboard fetches for the selected period:
`rent_payments` with `.eq('month', m).eq('year', y)`. -/
def fetchPeriodPayments (payments : List RentPaymentRow) (m y : Nat) :
    List RentPaymentRow :=
  payments.filter (fun p => p.month == m && p.year == y)

/-- `paidTenantIds` (Dashboard line 66 / RentTracking line 157): the
`tenant_id` of every fetched payment. -/
def paidTenantIds (payments : List RentPaymentRow) : List String :=
  payments.map (fun p => p.tenant_id)

/-- `dueTenants` (Dashboard line 115) / `unpaidTenants` (RentTracking
line 158): `tenants.filter(t => !paidTenantIds.includes(t.id))`. -/
def dueTenants (tenants : List TenantRow) (pids : List String) : List TenantRow :=
  tenants.filter (fun t => !(pids.contains t.id))

/-- `countOpen`: the number of requests with `status = 'open'` in a
collection (`MaintenanceManagement.openCount` over the full fetch). -/
def countOpen (reqs : List MRequestRow) : Nat :=
  (reqs.filter (fun r => r.status == "open")).length

/-- `Dashboard.fetchAdminData`'s open-requests query: filter
`status = 'open'`, order by `created_at` descending, `limit(5)`. -/
def fetchOpenRequestsLimited (reqs : List MRequestRow) : List MRequestRow :=
  (((reqs.filter (fun r => r.status == "open")).mergeSort
      (fun a b => b.created_at ≤ a.created_at)).take 5)

/-- The value of the admin dashboard's "Open Requests" stat card:
`openRequests.length` over the limited fetch. -/
def openRequestsStat (reqs : List MRequestRow) : Nat :=
  (fetchOpenRequestsLimited reqs).length

/-! ## Role branches (Dashboard useEffect, DashboardLayout, ProtectedRoute) -/

/-- Which data-fetch path the Dashboard takes. -/
inductive DashboardFetch where
  | adminData
  | tenantData
  deriving DecidableEq, Repr

/-- `Dashboard`'s role branch: `userRole === 'admin' ? fetchAdminData()
: fetchTenantData()`; a `null` role (no role record) is `none`. -/
def dashboardFetchFor (userRole : Option AppRole) : DashboardFetch :=
  if userRole = some AppRole.admin then DashboardFetch.adminData
  else DashboardFetch.tenantData

/-- The two navigation link sets of `DashboardLayout`. -/
inductive NavLinks where
  | adminLinks
  | tenantLinks
  deriving DecidableEq, Repr

/-- `DashboardLayout` line 48: `links = userRole === 'admin' ?
adminLinks : tenantLinks`. -/
def linksFor (userRole : Option AppRole) : NavLinks :=
  if userRole = some AppRole.admin then NavLinks.adminLinks
  else NavLinks.tenantLinks

/-- What `ProtectedRoute` renders. -/
inductive RouteDecision where
  | render
  | redirectToAuth
  deriving DecidableEq, Repr

/-- `App.ProtectedRoute`: redirect to `/auth` only when there is no
authenticated user; the role is not consulted. -/
def protectedRoute (user : Option String) : RouteDecision :=
  if user.isSome then RouteDecision.render else RouteDecision.redirectToAuth

/-! ## Tenant provisioning (TenantManagement.handleSubmit) -/

/-- The three backend calls of `TenantManagement.handleSubmit` in
source order: `supabase.auth.signUp`, insert into `tenants`, insert
into `user_roles`. -/
inductive ProvisionStep where
  | signUp
  | tenantInsert
  | roleInsert
  deriving DecidableEq, Repr

/-- Outcomes of the three backend calls, supplied by the environment:
each is either an error message or a success (`signUp` yields the new
user id). -/
structure ProvisionEnv where
  signUpResult : Except String String
  tenantInsertResult : Except String Unit
  roleInsertResult : Except String Unit
  deriving Repr

/-- What the page surfaces after provisioning.  `genericError` is the
catch-all toast carrying the thrown message;
`orphanedPrincipalFailure` models the spec's distinct
partial-provisioning failure (a dedicated error for "identity created
but profile/role missing") — the code has no path producing it. -/
inductive ProvisionOutcome where
  | success
  | genericError (msg : String)
  | orphanedPrincipalFailure
  deriving DecidableEq, Repr

/-- `TenantManagement.handleSubmit` after validation: run the three
calls in order, aborting at the first error; any thrown error lands in
the generic catch block and is shown as a generic toast.  Returns the
steps attempted and the surfaced outcome. -/
def provisionTenant (env : ProvisionEnv) : List ProvisionStep × ProvisionOutcome :=
  match env.signUpResult with
  | Except.error m => ([ProvisionStep.signUp], ProvisionOutcome.genericError m)
  | Except.ok _uid =>
    match env.tenantInsertResult with
    | Except.error m =>
        ([ProvisionStep.signUp, ProvisionStep.tenantInsert],
         ProvisionOutcome.genericError m)
    | Except.ok _ =>
      match env.roleInsertResult with
      | Except.error m =>
          ([ProvisionStep.signUp, ProvisionStep.tenantInsert, ProvisionStep.roleInsert],
           ProvisionOutcome.genericError m)
      | Except.ok _ =>
          ([ProvisionStep.signUp, ProvisionStep.tenantInsert, ProvisionStep.roleInsert],
           ProvisionOutcome.success)

/-! ## Row-level security (SQL policies on rent_payments and
maintenance_requests) -/

/-- The store state the policies consult. -/
structure DBState where
  user_roles : List UserRoleRow
  tenants : List TenantRow
  rent_payments : List RentPaymentRow
  maintenance_requests : List MRequestRow
  deriving Repr

/-- `public.has_role(_user_id, _role)`: membership in `user_roles`. -/
def hasRole (db : DBState) (uid : String) (r : AppRole) : Bool :=
  db.user_roles.any (fun x => x.user_id == uid && x.role == r)

/-- `public.get_tenant_id_for_user(_user_id)`:
`SELECT id FROM tenants WHERE auth_user_id = _user_id LIMIT 1`. -/
def getTenantIdForUser (db : DBState) (uid : String) : Option String :=
  ((db.tenants.filter (fun t => t.auth_user_id == some uid)).head?).map
    (fun t => t.id)

/-- The SELECT policies on `rent_payments`: admins see every row;
otherwise a row is visible when its `tenant_id` equals the reader's
resolved tenant id (policies combine disjunctively). -/
def canSelectRentPayment (db : DBState) (uid : String) (p : RentPaymentRow) : Bool :=
  hasRole db uid AppRole.admin || some p.tenant_id == getTenantIdForUser db uid

/-- The SELECT policies on `maintenance_requests`, same shape. -/
def canSelectMaintenance (db : DBState) (uid : String) (r : MRequestRow) : Bool :=
  hasRole db uid AppRole.admin || some r.tenant_id == getTenantIdForUser db uid

/-- The rows a `SELECT * FROM rent_payments` returns to `uid` under
row-level security: the policy filter, never an error. -/
def visibleRentPayments (db : DBState) (uid : String) : List RentPaymentRow :=
  db.rent_payments.filter (canSelectRentPayment db uid)

/-- The rows a `SELECT * FROM maintenance_requests` returns to `uid`
under row-level security. -/
def visibleMaintenanceRequests (db : DBState) (uid : String) : List MRequestRow :=
  db.maintenance_requests.filter (canSelectMaintenance db uid)

/-! ## Theorems -/

/-- C1: `recordPayment` enforces uniqueness of `(tenant_id, month,
year)`: for a valid tuple not previously recorded the first insert
succeeds, a second insert with the identical tuple fails with the
specific duplicate-payment error, and the store's
uniqueness-violation signal (code 23505) is never surfaced as a
generic failure. -/
theorem recordPayment_unique_composite_key
    (ledger : List RentPaymentRow) (p q : RentPaymentRow)
    (hm : monthCheck p.month = true) (hy : yearCheck p.year = true)
    (hfresh : ledger.any (sameKey p) = false)
    (hkey : sameKey q p = true) :
    recordPayment ledger p = Except.ok (ledger ++ [p]) ∧
    recordPayment (ledger ++ [p]) q = Except.error RecordError.duplicatePayment ∧
    ∀ (l : List RentPaymentRow) (r : RentPaymentRow),
      recordPayment l r ≠ Except.error (RecordError.generic StoreError.uniqueViolation) := by
  have hq : q.tenant_id = p.tenant_id ∧ q.month = p.month ∧ q.year = p.year := by
    simpa [sameKey, Bool.and_eq_true, and_assoc] using hkey
  refine ⟨?_, ?_, ?_⟩
  · simp [recordPayment, rentPaymentsInsert, hm, hy, hfresh]
  · have hqm : monthCheck q.month = true := by rw [hq.2.1]; exact hm
    have hqy : yearCheck q.year = true := by rw [hq.2.2]; exact hy
    have hdup : (ledger ++ [p]).any (sameKey q) = true := by
      simp [List.any_append, sameKey, hq.1, hq.2.1, hq.2.2]
    simp [recordPayment, rentPaymentsInsert, hqm, hqy, hdup]
  · intro l r
    unfold recordPayment
    cases h : rentPaymentsInsert l r with
    | ok _ => simp
    | error e => cases e <;> simp

/-- C1 witness: a concrete fresh payment is recorded once and the
identical tuple is rejected with the duplicate-payment error. -/
theorem recordPayment_unique_composite_key_witness :
    recordPayment []
        { tenant_id := "tA", month := 3, year := 2024, amount := 5000, paid_on := "2024-03-01" }
      = Except.ok ([] ++
        [{ tenant_id := "tA", month := 3, year := 2024, amount := 5000, paid_on := "2024-03-01" }]) ∧
    recordPayment ([] ++
        [{ tenant_id := "tA", month := 3, year := 2024, amount := 5000, paid_on := "2024-03-01" }])
        { tenant_id := "tA", month := 3, year := 2024, amount := 5500, paid_on := "2024-03-09" }
      = Except.error RecordError.duplicatePayment ∧
    ∀ (l : List RentPaymentRow) (r : RentPaymentRow),
      recordPayment l r ≠ Except.error (RecordError.generic StoreError.uniqueViolation) :=
  recordPayment_unique_composite_key []
    { tenant_id := "tA", month := 3, year := 2024, amount := 5000, paid_on := "2024-03-01" }
    { tenant_id := "tA", month := 3, year := 2024, amount := 5500, paid_on := "2024-03-09" }
    (by decide) (by decide) (by decide) (by decide)

/-- C7 counterexample: the claim says an accepted payment always has a
non-negative amount, but neither the page nor the schema constrains
`amount` — a payment of amount −1 is recorded successfully. -/
theorem recordPayment_accepts_negative_amount :
    recordPayment []
        { tenant_id := "tA", month := 1, year := 2024, amount := -1, paid_on := "2024-01-05" }
      = Except.ok
        [{ tenant_id := "tA", month := 1, year := 2024, amount := -1, paid_on := "2024-01-05" }] := by
  simp [recordPayment, rentPaymentsInsert, monthCheck, yearCheck]

/-- C7 amended: the `month` ∈ [1,12] and `year` ∈ [2000,2100] range
checks hold on every accepted payment — inserts violating them fail
and no row with an out-of-range month or year is ever recorded — but
`amount` is unconstrained (negative amounts are accepted). -/
theorem recordPayment_month_year_ranges
    (ledger : List RentPaymentRow) (p : RentPaymentRow)
    (hled : ∀ r ∈ ledger, monthCheck r.month = true ∧ yearCheck r.year = true) :
    (∀ l', recordPayment ledger p = Except.ok l' →
        ∀ r ∈ l', monthCheck r.month = true ∧ yearCheck r.year = true) ∧
    ((monthCheck p.month && yearCheck p.year) = false →
        recordPayment ledger p = Except.error (RecordError.generic StoreError.checkViolation)) := by
  constructor
  · intro l' hok r hr
    unfold recordPayment rentPaymentsInsert at hok
    cases hck : (monthCheck p.month && yearCheck p.year) with
    | false => simp [hck] at hok
    | true =>
      cases hdup : ledger.any (sameKey p) with
      | true => simp [hck, hdup] at hok
      | false =>
        simp [hck, hdup] at hok
        subst hok
        rcases List.mem_append.mp hr with hmem | hmem
        · exact hled r hmem
        · rcases List.mem_singleton.mp hmem with rfl
          simpa [Bool.and_eq_true] using hck
  · intro hbad
    simp [recordPayment, rentPaymentsInsert, hbad]

/-- C7 amended witness: from an empty ledger, a month-13 insert fails
with the generic check-violation error, and the invariant holds on the
result of a valid insert. -/
theorem recordPayment_month_year_ranges_witness :
    (∀ r ∈ ([] : List RentPaymentRow), monthCheck r.month = true ∧ yearCheck r.year = true) ∧
    ((monthCheck 13 && yearCheck 2024) = false →
        recordPayment []
            { tenant_id := "tA", month := 13, year := 2024, amount := 100, paid_on := "d" }
          = Except.error (RecordError.generic StoreError.checkViolation)) ∧
    recordPayment [] { tenant_id := "tA", month := 13, year := 2024, amount := 100, paid_on := "d" }
      = Except.error (RecordError.generic StoreError.checkViolation) := by
  refine ⟨by simp, ?_, ?_⟩
  · exact (recordPayment_month_year_ranges []
      { tenant_id := "tA", month := 13, year := 2024, amount := 100, paid_on := "d" }
      (by simp)).2
  · exact (recordPayment_month_year_ranges []
      { tenant_id := "tA", month := 13, year := 2024, amount := 100, paid_on := "d" }
      (by simp)).2 (by decide)

/-- C4: maintenance-request creation validates the description length
against [10, 1000] before any write: outside the interval the page
shows a validation error and issues no insert; inside it, exactly the
intended insert (with `status = 'open'`) is issued with no error. -/
theorem submitRequest_validates_length (ti : TenantInfo) (s : String) :
    ((submitRequest ti s).2 = some SubmitError.validationError ↔
        ¬(10 ≤ s.length ∧ s.length ≤ 1000)) ∧
    ((submitRequest ti s).1 = [] ↔ ¬(10 ≤ s.length ∧ s.length ≤ 1000)) ∧
    ((10 ≤ s.length ∧ s.length ≤ 1000) ↔
        submitRequest ti s =
          ([{ tenant_id := ti.id, room_no := ti.room_no,
              issue_description := s, status := "open" }], none)) := by
  unfold submitRequest requestSchemaCheck
  by_cases h : 10 ≤ s.length ∧ s.length ≤ 1000
  · rw [if_pos (by simpa [Bool.and_eq_true] using h)]
    simp [h]
  · rw [if_neg (by simpa [Bool.and_eq_true] using h)]
    simp [h]

/-- C3: the dashboard computes `dueTenants` as a set difference by id —
a fetched tenant is due for `(m, y)` exactly when no payment row with
its id exists for that period — and empty tenant and payment lists are
valid inputs producing empty results, not an error. -/
theorem dueTenants_iff_no_payment (tenants : List TenantRow)
    (payments : List RentPaymentRow) (m y : Nat) (t : TenantRow) :
    (t ∈ dueTenants tenants (paidTenantIds (fetchPeriodPayments payments m y)) ↔
        t ∈ tenants ∧ ¬ ∃ p ∈ payments, p.tenant_id = t.id ∧ p.month = m ∧ p.year = y) ∧
    dueTenants [] (paidTenantIds (fetchPeriodPayments [] m y)) = [] ∧
    paidTenantIds (fetchPeriodPayments [] m y) = [] := by
  refine ⟨?_, by simp [dueTenants], by simp [paidTenantIds, fetchPeriodPayments]⟩
  simp only [dueTenants, paidTenantIds, fetchPeriodPayments, List.mem_filter,
    List.contains_eq_any_beq, Bool.not_eq_true', List.any_eq_false, List.mem_map,
    List.mem_filter, Bool.and_eq_true, beq_iff_eq]
  constructor
  · rintro ⟨ht, hno⟩
    refine ⟨ht, ?_⟩
    rintro ⟨p, hp, hid, hm, hy⟩
    exact hno p.tenant_id ⟨p, ⟨hp, hm, hy⟩, rfl⟩ hid.symm
  · rintro ⟨ht, hno⟩
    refine ⟨ht, ?_⟩
    rintro x ⟨p, ⟨hp, hm, hy⟩, rfl⟩ heq
    exact hno ⟨p, hp, heq.symm, hm, hy⟩

/-- The admin dashboard's "Open Requests" stat equals the length of the
limited fetch: the open-filtered, sorted list truncated to 5 rows. -/
lemma openRequestsStat_eq (reqs : List MRequestRow) :
    openRequestsStat reqs = min 5 (countOpen reqs) := by
  simp [openRequestsStat, fetchOpenRequestsLimited, countOpen, List.length_take]

/-- Six open maintenance requests, one per room. -/
def sixOpenRequests : List MRequestRow :=
  [{ id := "r1", tenant_id := "t1", room_no := "101", issue_description := "leaking tap",
     status := "open", created_at := 1, resolved_at := none },
   { id := "r2", tenant_id := "t2", room_no := "102", issue_description := "broken bulb",
     status := "open", created_at := 2, resolved_at := none },
   { id := "r3", tenant_id := "t3", room_no := "103", issue_description := "noisy fan",
     status := "open", created_at := 3, resolved_at := none },
   { id := "r4", tenant_id := "t4", room_no := "104", issue_description := "stuck door",
     status := "open", created_at := 4, resolved_at := none },
   { id := "r5", tenant_id := "t5", room_no := "105", issue_description := "wobbly chair",
     status := "open", created_at := 5, resolved_at := none },
   { id := "r6", tenant_id := "t6", room_no := "106", issue_description := "cracked window",
     status := "open", created_at := 6, resolved_at := none }]

/-- C5 counterexample: with six open requests the admin dashboard's
"Open Requests" card shows 5 (the query carries `limit(5)`), not the
total number of open requests, 6. -/
theorem openRequestsStat_not_total :
    openRequestsStat sixOpenRequests = 5 ∧ countOpen sixOpenRequests = 6 ∧
    openRequestsStat sixOpenRequests ≠ countOpen sixOpenRequests := by
  have hc : countOpen sixOpenRequests = 6 := by decide
  have hs : openRequestsStat sixOpenRequests = 5 := by
    rw [openRequestsStat_eq, hc]
    norm_num
  exact ⟨hs, hc, by rw [hs, hc]; decide⟩

/-- C5 amended: the admin dashboard's "Open Requests" value equals the
number of open requests capped at 5 — `min(openRequestCount, 5)` — the
fetch behind the card carrying `limit(5)`, while the full
count-by-status is computed on the maintenance-management page. -/
theorem openRequestsStat_min_of_count (reqs : List MRequestRow) :
    openRequestsStat reqs = min (countOpen reqs) 5 := by
  rw [openRequestsStat_eq, Nat.min_comm]

/-- C6 counterexample: a principal whose role lookup returns nothing
(`userRole = none`) is routed exactly as a tenant-role principal — the
Dashboard runs the tenant fetch and the layout shows the tenant links —
rather than being treated as unauthorized. -/
theorem noRole_treated_as_tenant :
    dashboardFetchFor none = DashboardFetch.tenantData ∧
    linksFor none = NavLinks.tenantLinks ∧
    dashboardFetchFor none = dashboardFetchFor (some AppRole.tenant) ∧
    linksFor none = linksFor (some AppRole.tenant) := by
  decide

/-- C6 amended: the role gate only distinguishes `admin` from
everything else — a principal with no role record takes the tenant
data-fetch branch and sees the tenant links, and the route guard
renders for any authenticated user without consulting the role (no
forced re-authentication). -/
theorem noRole_defaults_to_tenant_branch (uid : String) (ur : Option AppRole) :
    protectedRoute (some uid) = RouteDecision.render ∧
    (dashboardFetchFor ur = DashboardFetch.adminData ↔ ur = some AppRole.admin) ∧
    (linksFor ur = NavLinks.adminLinks ↔ ur = some AppRole.admin) := by
  refine ⟨rfl, ?_, ?_⟩ <;>
    cases ur with
    | none => decide
    | some r => cases r <;> decide

/-- C8 counterexample: when the sign-up succeeds and the tenant-profile
insert fails, the page surfaces the thrown message through the generic
error toast, not the distinct partial-provisioning failure. -/
theorem provisioning_failure_surfaced_generic :
    provisionTenant
        { signUpResult := Except.ok "u1",
          tenantInsertResult := Except.error "tenant insert failed",
          roleInsertResult := Except.ok () }
      = ([ProvisionStep.signUp, ProvisionStep.tenantInsert],
         ProvisionOutcome.genericError "tenant insert failed") ∧
    ProvisionOutcome.genericError "tenant insert failed" ≠
      ProvisionOutcome.orphanedPrincipalFailure := by
  exact ⟨rfl, by simp⟩

/-- C8 amended: `provisionTenant` performs its three steps in source
order — the profile insert runs exactly when sign-up succeeded, the
role insert exactly when both prior steps succeeded, and the whole
operation succeeds exactly when all three do — but a failure of step 2
or 3 after step 1 is surfaced as a generic error, never as a distinct
partial-provisioning failure, so the orphaned principal goes
undetected. -/
theorem provisionTenant_ordered_generic_error (env : ProvisionEnv) :
    (provisionTenant env).1.head? = some ProvisionStep.signUp ∧
    (ProvisionStep.tenantInsert ∈ (provisionTenant env).1 ↔
        env.signUpResult.isOk = true) ∧
    (ProvisionStep.roleInsert ∈ (provisionTenant env).1 ↔
        (env.signUpResult.isOk && env.tenantInsertResult.isOk) = true) ∧
    ((provisionTenant env).2 = ProvisionOutcome.success ↔
        (env.signUpResult.isOk && env.tenantInsertResult.isOk &&
          env.roleInsertResult.isOk) = true) ∧
    (provisionTenant env).2 ≠ ProvisionOutcome.orphanedPrincipalFailure := by
  obtain ⟨s, t, r⟩ := env
  cases s <;> cases t <;> cases r <;>
    simp [provisionTenant, Except.isOk, Except.toBool]

/-- C9: under the row-level-security policies, a tenant-role principal
(no admin role) reads only rows of its own tenant: every visible rent
payment and maintenance request carries the reader's resolved tenant
id — zero rows of any other tenant — and appending other tenants'
rows to the store leaves the reader's query result unchanged. -/
theorem tenant_reads_only_own_rows (db : DBState) (uid tid : String)
    (hAdmin : hasRole db uid AppRole.admin = false)
    (hTid : getTenantIdForUser db uid = some tid) :
    (∀ p ∈ visibleRentPayments db uid, p.tenant_id = tid) ∧
    (∀ r ∈ visibleMaintenanceRequests db uid, r.tenant_id = tid) ∧
    (∀ otherPayments : List RentPaymentRow,
      (∀ p ∈ otherPayments, p.tenant_id ≠ tid) →
      visibleRentPayments
          { db with rent_payments := db.rent_payments ++ otherPayments } uid
        = visibleRentPayments db uid) ∧
    (∀ otherReqs : List MRequestRow,
      (∀ r ∈ otherReqs, r.tenant_id ≠ tid) →
      visibleMaintenanceRequests
          { db with maintenance_requests := db.maintenance_requests ++ otherReqs } uid
        = visibleMaintenanceRequests db uid) := by
  have hsel : ∀ p : RentPaymentRow,
      canSelectRentPayment db uid p = (p.tenant_id == tid) := by
    intro p
    simp [canSelectRentPayment, hAdmin, hTid]
  have hselm : ∀ r : MRequestRow,
      canSelectMaintenance db uid r = (r.tenant_id == tid) := by
    intro r
    simp [canSelectMaintenance, hAdmin, hTid]
  have hsel' : ∀ (x : List RentPaymentRow) (p : RentPaymentRow),
      canSelectRentPayment { db with rent_payments := x } uid p
        = canSelectRentPayment db uid p := by
    intro x p
    simp [canSelectRentPayment, hasRole, getTenantIdForUser]
  have hselm' : ∀ (x : List MRequestRow) (r : MRequestRow),
      canSelectMaintenance { db with maintenance_requests := x } uid r
        = canSelectMaintenance db uid r := by
    intro x r
    simp [canSelectMaintenance, hasRole, getTenantIdForUser]
  refine ⟨?_, ?_, ?_, ?_⟩
  · intro p hp
    have := (List.mem_filter.mp hp).2
    rw [hsel p] at this
    exact beq_iff_eq.mp this
  · intro r hr
    have := (List.mem_filter.mp hr).2
    rw [hselm r] at this
    exact beq_iff_eq.mp this
  · intro other hother
    unfold visibleRentPayments
    show List.filter _ (db.rent_payments ++ other) = _
    rw [List.filter_append]
    have hnil : other.filter (canSelectRentPayment { db with rent_payments := db.rent_payments ++ other } uid) = [] := by
      apply List.filter_eq_nil_iff.mpr
      intro p hp
      rw [hsel' _ p, hsel p]
      simpa using hother p hp
    rw [hnil, List.append_nil]
    apply List.filter_congr
    intro p _
    exact hsel' _ p
  · intro other hother
    unfold visibleMaintenanceRequests
    show List.filter _ (db.maintenance_requests ++ other) = _
    rw [List.filter_append]
    have hnil : other.filter (canSelectMaintenance { db with maintenance_requests := db.maintenance_requests ++ other } uid) = [] := by
      apply List.filter_eq_nil_iff.mpr
      intro r hr
      rw [hselm' _ r, hselm r]
      simpa using hother r hr
    rw [hnil, List.append_nil]
    apply List.filter_congr
    intro r _
    exact hselm' _ r

/-- A small concrete store: two tenants with linked principals, a rent
payment and a maintenance request for each. -/
def demoDB : DBState :=
  { user_roles := [{ user_id := "admin1", role := AppRole.admin },
                   { user_id := "u1", role := AppRole.tenant },
                   { user_id := "u2", role := AppRole.tenant }],
    tenants := [{ id := "tA", name := "Asha", room_no := "101", auth_user_id := some "u1" },
                { id := "tB", name := "Bilal", room_no := "102", auth_user_id := some "u2" }],
    rent_payments :=
      [{ tenant_id := "tA", month := 3, year := 2024, amount := 5000, paid_on := "2024-03-01" },
       { tenant_id := "tB", month := 3, year := 2024, amount := 6000, paid_on := "2024-03-02" }],
    maintenance_requests :=
      [{ id := "r1", tenant_id := "tA", room_no := "101", issue_description := "leaking tap",
         status := "open", created_at := 1, resolved_at := none },
       { id := "r2", tenant_id := "tB", room_no := "102", issue_description := "broken bulb",
         status := "open", created_at := 2, resolved_at := none }] }

/-- C9 witness: in the concrete store, principal `u1` has no admin
role, resolves to tenant `tA`, and its reads satisfy the ownership and
independence properties. -/
theorem tenant_reads_only_own_rows_witness :
    hasRole demoDB "u1" AppRole.admin = false ∧
    getTenantIdForUser demoDB "u1" = some "tA" ∧
    ((∀ p ∈ visibleRentPayments demoDB "u1", p.tenant_id = "tA") ∧
     (∀ r ∈ visibleMaintenanceRequests demoDB "u1", r.tenant_id = "tA") ∧
     (∀ otherPayments : List RentPaymentRow,
       (∀ p ∈ otherPayments, p.tenant_id ≠ "tA") →
       visibleRentPayments
           { demoDB with rent_payments := demoDB.rent_payments ++ otherPayments } "u1"
         = visibleRentPayments demoDB "u1") ∧
     (∀ otherReqs : List MRequestRow,
       (∀ r ∈ otherReqs, r.tenant_id ≠ "tA") →
       visibleMaintenanceRequests
           { demoDB with maintenance_requests := demoDB.maintenance_requests ++ otherReqs } "u1"
         = visibleMaintenanceRequests demoDB "u1")) :=
  ⟨by decide, by decide,
   tenant_reads_only_own_rows demoDB "u1" "tA" (by decide) (by decide)⟩

/-- C10: paid and due tenants partition the tenant list — when tenant
ids are pairwise distinct and the period's payments have pairwise
distinct tenant ids all drawn from the tenant list, the number of
tenants equals the number of payments plus the number of due tenants
(Total Tenants = Rent Paid + Rent Due). -/
theorem tenants_partition_paid_due
    (tenants : List TenantRow) (payments : List RentPaymentRow)
    (h1 : (tenants.map TenantRow.id).Nodup)
    (h2 : (paidTenantIds payments).Nodup)
    (h3 : ∀ p ∈ payments, p.tenant_id ∈ tenants.map TenantRow.id) :
    tenants.length =
      payments.length + (dueTenants tenants (paidTenantIds payments)).length := by
  have hpart :=
    List.length_eq_length_filter_add (l := tenants)
      (fun t => (paidTenantIds payments).contains t.id)
  have hdue : dueTenants tenants (paidTenantIds payments)
      = tenants.filter (fun t => !((paidTenantIds payments).contains t.id)) := rfl
  have hmapflt :
      (tenants.map TenantRow.id).filter (fun i => (paidTenantIds payments).contains i)
        = (tenants.filter (fun t => (paidTenantIds payments).contains t.id)).map
            TenantRow.id :=
    List.filter_map TenantRow.id tenants
  have hlen : (tenants.filter (fun t => (paidTenantIds payments).contains t.id)).length
      = ((tenants.map TenantRow.id).filter
          (fun i => (paidTenantIds payments).contains i)).length := by
    rw [hmapflt, List.length_map]
  have hperm :
      ((tenants.map TenantRow.id).filter
        (fun i => (paidTenantIds payments).contains i)).Perm (paidTenantIds payments) := by
    refine (List.perm_ext_iff_of_nodup (h1.filter _) h2).mpr ?_
    intro a
    constructor
    · intro ha
      have := (List.mem_filter.mp ha).2
      simpa using this
    · intro ha
      refine List.mem_filter.mpr ⟨?_, by simpa using ha⟩
      rcases List.mem_map.mp ha with ⟨p, hp, rfl⟩
      exact h3 p hp
  have hpids : (paidTenantIds payments).length = payments.length :=
    List.length_map payments _
  calc tenants.length
      = (tenants.filter (fun t => (paidTenantIds payments).contains t.id)).length
          + (tenants.filter (fun t => !((paidTenantIds payments).contains t.id))).length :=
        hpart
    _ = (paidTenantIds payments).length
          + (dueTenants tenants (paidTenantIds payments)).length := by
        rw [hlen, hperm.length_eq, hdue]
    _ = payments.length + (dueTenants tenants (paidTenantIds payments)).length := by
        rw [hpids]

/-- Two tenants with distinct ids, used to witness the partition. -/
def demoTenants : List TenantRow :=
  [{ id := "tA", name := "Asha", room_no := "101", auth_user_id := some "u1" },
   { id := "tB", name := "Bilal", room_no := "102", auth_user_id := some "u2" }]

/-- One period payment, by the first demo tenant. -/
def demoPayments : List RentPaymentRow :=
  [{ tenant_id := "tA", month := 3, year := 2024, amount := 5000,
     paid_on := "2024-03-01" }]

/-- C10 witness: two tenants, one period payment — the counts satisfy
2 = 1 + 1. -/
theorem tenants_partition_paid_due_witness :
    (demoTenants.map TenantRow.id).Nodup ∧
    (paidTenantIds demoPayments).Nodup ∧
    (∀ p ∈ demoPayments, p.tenant_id ∈ demoTenants.map TenantRow.id) ∧
    demoTenants.length =
      demoPayments.length +
        (dueTenants demoTenants (paidTenantIds demoPayments)).length :=
  ⟨by decide, by decide, by decide,
   tenants_partition_paid_due demoTenants demoPayments
    (by decide) (by decide) (by decide)⟩

/-- Every insert `SubmitRequest.handleSubmit` issues carries
`status = 'open'`. -/
lemma submitRequest_status_open (ti : TenantInfo) (desc : String) :
    ∀ ins ∈ (submitRequest ti desc).1, ins.status = "open" := by
  intro ins hins
  unfold submitRequest at hins
  split at hins
  · simpa using congrArg MaintenanceInsert.status (List.mem_singleton.mp hins)
  · simp at hins

/-- One timestamped call preserves the maintenance invariant, moving
its time bound forward to the call's time. -/
lemma MInv_applyMStep (db : List MRequestRow) (t0 t : Nat) (s : MStep)
    (hinv : MInv db t0) (ht : t0 ≤ t) : MInv (applyMStep db s t) t := by
  cases s with
  | create ti desc id =>
    intro r hr
    rcases List.mem_append.mp hr with hmem | hmem
    · obtain ⟨h1, h2, h3⟩ := hinv r hmem
      exact ⟨le_trans h1 ht, h2, fun ts hts => ⟨(h3 ts hts).1, le_trans (h3 ts hts).2 ht⟩⟩
    · rcases List.mem_map.mp hmem with ⟨ins, hins, rfl⟩
      have hopen := submitRequest_status_open ti desc ins hins
      refine ⟨le_refl t, ?_, by simp⟩
      simp [hopen]
  | resolve id =>
    intro r hr
    rcases List.mem_map.mp hr with ⟨r0, hr0, rfl⟩
    obtain ⟨h1, h2, h3⟩ := hinv r0 hr0
    by_cases hid : (r0.id == id) = true
    · rw [if_pos hid]
      exact ⟨le_trans h1 ht, by simp,
        fun ts hts => by
          simp only [Option.some.injEq] at hts
          exact ⟨hts ▸ le_trans h1 ht, hts ▸ le_refl t⟩⟩
    · rw [if_neg hid]
      exact ⟨le_trans h1 ht, h2, fun ts hts => ⟨(h3 ts hts).1, le_trans (h3 ts hts).2 ht⟩⟩

/-- Replaying a chronological suffix of calls from an invariant-holding
table yields an invariant-holding table. -/
lemma MInv_foldl (tr : List (MStep × Nat)) :
    ∀ (db : List MRequestRow) (t0 : Nat), MInv db t0 → ChronoFrom t0 tr →
      ∃ t1, MInv (tr.foldl (fun db st => applyMStep db st.1 st.2) db) t1 := by
  induction tr with
  | nil => exact fun db t0 hinv _ => ⟨t0, hinv⟩
  | cons st rest ih =>
    intro db t0 hinv hchr
    obtain ⟨hle, hrest⟩ := hchr
    exact ih (applyMStep db st.1 st.2) st.2 (MInv_applyMStep db t0 st.2 st.1 hinv hle) hrest

/-- C2: along any chronological trace of page calls, every reachable
maintenance request has `resolved_at` set exactly when its status is
resolved, with `resolved_at ≥ created_at`; applying `resolve` marks
each targeted row resolved with `resolved_at` equal to the call time;
and a resolved row is never returned to `open` by any further call. -/
theorem maintenance_lifecycle (tr : List (MStep × Nat)) (h : ChronoFrom 0 tr) :
    (∀ r ∈ runTrace tr,
        (r.resolved_at.isSome ↔ r.status = "resolved") ∧
        ∀ ts, r.resolved_at = some ts → r.created_at ≤ ts) ∧
    (∀ (id : String) (t : Nat), ∀ r ∈ applyMStep (runTrace tr) (MStep.resolve id) t,
        r.id = id → r.status = "resolved" ∧ r.resolved_at = some t) ∧
    (∀ (s : MStep) (t i : Nat) (r r' : MRequestRow),
        (runTrace tr)[i]? = some r → r.status = "resolved" →
        (applyMStep (runTrace tr) s t)[i]? = some r' → r'.status = "resolved") := by
  have hinv0 : MInv [] 0 := by intro r hr; simp at hr
  obtain ⟨t1, hinv⟩ := MInv_foldl tr [] 0 hinv0 h
  refine ⟨?_, ?_, ?_⟩
  · intro r hr
    obtain ⟨_, h2, h3⟩ := hinv r hr
    exact ⟨h2, fun ts hts => (h3 ts hts).1⟩
  · intro id t r hr hrid
    rcases List.mem_map.mp hr with ⟨r0, _, rfl⟩
    by_cases hid : (r0.id == id) = true
    · rw [if_pos hid]
      exact ⟨rfl, rfl⟩
    · rw [if_neg hid] at hrid ⊢
      exact absurd (beq_iff_eq.mpr hrid) hid
  · intro s t i r r' hget hres hget'
    cases s with
    | create ti desc id =>
      have hi : i < (runTrace tr).length := by
        rcases List.getElem?_eq_some.mp hget with ⟨hlt, _⟩
        exact hlt
      unfold applyMStep at hget'
      rw [List.getElem?_append, if_pos hi, hget] at hget'
      cases hget'
      exact hres
    | resolve id =>
      unfold applyMStep at hget'
      rw [List.getElem?_map, hget] at hget'
      simp only [Option.map_some'] at hget'
      by_cases hid : (r.id == id) = true
      · rw [if_pos hid] at hget'
        cases hget'
        rfl
      · rw [if_neg hid] at hget'
        cases hget'
        exact hres

/-- A two-call demo trace: a valid request submitted at time 1 and
resolved at time 2. -/
def demoTrace : List (MStep × Nat) :=
  [(MStep.create { id := "tA", room_no := "101" } "the kitchen tap leaks badly" "r1", 1),
   (MStep.resolve "r1", 2)]

/-- C2 witness: the demo trace is chronological and the lifecycle
properties hold on its reachable state. -/
theorem maintenance_lifecycle_witness :
    ChronoFrom 0 demoTrace ∧
    ((∀ r ∈ runTrace demoTrace,
        (r.resolved_at.isSome ↔ r.status = "resolved") ∧
        ∀ ts, r.resolved_at = some ts → r.created_at ≤ ts) ∧
     (∀ (id : String) (t : Nat),
        ∀ r ∈ applyMStep (runTrace demoTrace) (MStep.resolve id) t,
          r.id = id → r.status = "resolved" ∧ r.resolved_at = some t) ∧
     (∀ (s : MStep) (t i : Nat) (r r' : MRequestRow),
        (runTrace demoTrace)[i]? = some r → r.status = "resolved" →
        (applyMStep (runTrace demoTrace) s t)[i]? = some r' →
          r'.status = "resolved")) :=
  ⟨⟨by decide, by decide, trivial⟩,
   maintenance_lifecycle demoTrace ⟨by decide, by decide, trivial⟩⟩

end PGHarmony
